import Mathlib

/-!
Verification of the configuration-resolution core of the
xk6-output-elasticsearch repository (`pkg/esoutput/config.go`).

The embedding follows the source file:
* `NullString` models `gopkg.in/guregu/null.v3`'s `null.String`
  (a string value plus a validity flag);
* `NullDuration` models `go.k6.io/k6/lib/types`' `types.NullDuration`
  (an `int64` nanosecond count plus a validity flag; durations stay
  unbounded here since no claim exercises `int64` overflow);
* `Config`, `NewConfig`, `Config.Apply`, `ParseArg` and
  `GetConsolidatedConfig` are translated directly from the Go source;
* external collaborators (the Go JSON decoder, the Helm `strvals`
  key=value parser, and the k6 textual duration parser) are modelled by
  explicit executable functions over already-tokenised input, since their
  code lives outside this repository.  The models are commented where
  they appear.
-/

set_option autoImplicit false

namespace ESOutput

/-- Model of `null.String`: a string together with a validity flag
(`null.StringFrom v` is `⟨v, true⟩`, `null.NewString "" false` is
`⟨"", false⟩`). -/
structure NullString where
  value : String
  valid : Bool
  deriving Repr, DecidableEq

/-- Model of `types.NullDuration`: a duration in nanoseconds together with
a validity flag.  Go's `time.Duration` is an `int64` nanosecond count; we
use unbounded `Int` since no claim exercises overflow. -/
structure NullDuration where
  duration : Int
  valid : Bool
  deriving Repr, DecidableEq

/-- The `Config` struct of `pkg/esoutput/config.go`, field for field. -/
structure Config where
  url : NullString
  cloudID : NullString
  caCert : NullString
  user : NullString
  password : NullString
  flushPeriod : NullDuration
  deriving Repr, DecidableEq

/-- `defaultFlushPeriod = time.Second` (in nanoseconds). -/
def defaultFlushPeriod : Int := 1000000000

/-- `NewConfig` from the source: url defaults to
`"http://localhost:9200"`, the flush period to one second, and the other
four fields are explicitly invalid. -/
def NewConfig : Config :=
  { url := ⟨"http://localhost:9200", true⟩
    cloudID := ⟨"", false⟩
    caCert := ⟨"", false⟩
    user := ⟨"", false⟩
    password := ⟨"", false⟩
    flushPeriod := ⟨defaultFlushPeriod, true⟩ }

/-- The Go zero value `var c Config`: every field invalid. -/
def zeroConfig : Config :=
  { url := ⟨"", false⟩
    cloudID := ⟨"", false⟩
    caCert := ⟨"", false⟩
    user := ⟨"", false⟩
    password := ⟨"", false⟩
    flushPeriod := ⟨0, false⟩ }

/-- `Config.Apply` from the source: each of the six fields of `applied`
replaces the corresponding field of `base` exactly when it is valid. -/
def Config.Apply (base applied : Config) : Config :=
  let base := if applied.url.valid then { base with url := applied.url } else base
  let base := if applied.cloudID.valid then { base with cloudID := applied.cloudID } else base
  let base := if applied.caCert.valid then { base with caCert := applied.caCert } else base
  let base := if applied.user.valid then { base with user := applied.user } else base
  let base := if applied.password.valid then { base with password := applied.password } else base
  let base := if applied.flushPeriod.valid then { base with flushPeriod := applied.flushPeriod } else base
  base

/-! ### Model of the external k6 duration parser

`types.NullDuration.UnmarshalText` delegates to
`types.ParseExtendedDuration`, which accepts a plain integer (interpreted
as milliseconds) or Go duration syntax (components `<digits><unit>` with
units ns/us/ms/s/m/h).  This external library is not part of the
repository; the model below covers unsigned integer components, which is
the fragment the specification and the claims exercise (fractions, signs,
the `µs` alias and the extended `d` unit are outside the model). -/

/-- Nanoseconds per duration unit, per Go's `time.ParseDuration` table. -/
def unitNanos : String → Option Int
  | "ns" => some 1
  | "us" => some 1000
  | "ms" => some 1000000
  | "s" => some 1000000000
  | "m" => some 60000000000
  | "h" => some 3600000000000
  | _ => none

/-- Digits to a natural number, most significant first. -/
def digitsToNat (ds : List Char) : Nat :=
  ds.foldl (fun a c => a * 10 + (c.toNat - 48)) 0

/-- Parse a sequence of `<digits><unit>` duration components; the fuel is
an upper bound on the number of components (each consumes at least one
character). -/
def parseComponents : Nat → List Char → Option Int
  | _, [] => some 0
  | 0, _ :: _ => none
  | fuel + 1, c :: cs =>
    let l := c :: cs
    let digits := l.takeWhile Char.isDigit
    let rest := l.dropWhile Char.isDigit
    if digits.isEmpty then none
    else
      let unit := rest.takeWhile (fun ch => !ch.isDigit)
      let rest2 := rest.dropWhile (fun ch => !ch.isDigit)
      match unitNanos (String.mk unit) with
      | none => none
      | some u => (parseComponents fuel rest2).map
          (fun acc => (digitsToNat digits : Int) * u + acc)

/-- Model of `types.ParseExtendedDuration`: a plain unsigned integer is a
millisecond count; otherwise Go duration component syntax.  Returns the
duration in nanoseconds, or `none` on a parse error. -/
def parseGoDuration (s : String) : Option Int :=
  let cs := s.data
  if cs.isEmpty then none
  else if cs.all Char.isDigit then some ((digitsToNat cs : Int) * 1000000)
  else parseComponents cs.length cs

/-- Model of `types.NullDuration.UnmarshalText`: empty text resets the
receiver to the zero `NullDuration` without error; otherwise the text is
parsed as a duration, yielding a valid duration on success and an error
(leaving the caller's value untouched) on failure. -/
def NullDuration.unmarshalText (s : String) : Except Unit NullDuration :=
  if s = "" then .ok ⟨0, false⟩
  else
    match parseGoDuration s with
    | none => .error ()
    | some d => .ok ⟨d, true⟩

/-! ### Model of the external JSON decoder

`GetConsolidatedConfig` receives a `json.RawMessage` (a byte slice) and
decodes it with `encoding/json` into a `Config`.  The bytes themselves are
external input; we model them by their decode behaviour: `empty` is a
present-but-zero-length message (on which `json.Unmarshal` fails with
"unexpected end of JSON input"), `malformed` is any other content that is
not a JSON object of the expected shape, and `obj` is a well-formed JSON
object given as an association list from key to value.  A JSON value is a
string (`jstr`), `null` (`jnull`), or any other JSON value (`jother`,
e.g. a number), which `null.String`/`types.NullDuration` unmarshalling
rejects with an error.  Keys are assumed distinct, as produced by a JSON
object. -/

/-- A JSON value in a configuration document, by its decode behaviour. -/
inductive JVal where
  | jstr (s : String)
  | jnull
  | jother
  deriving Repr, DecidableEq

/-- A `json.RawMessage` that is present (non-nil), by its decode
behaviour. -/
inductive RawMessage where
  | empty
  | malformed
  | obj (fields : List (String × JVal))
  deriving Repr, DecidableEq

/-- Model of `null.String.UnmarshalJSON` applied to the value found under
a key (or to an absent key, which `encoding/json` leaves at the zero
value): a JSON string yields a valid string, JSON `null` or an absent key
yields the invalid zero value, and any other JSON value is a decode
error. -/
def decodeNullString : Option JVal → Except Unit NullString
  | some (.jstr s) => .ok ⟨s, true⟩
  | some .jnull => .ok ⟨"", false⟩
  | some .jother => .error ()
  | none => .ok ⟨"", false⟩

/-- Model of `types.NullDuration.UnmarshalJSON` applied to the value
found under `flushPeriod`: JSON `null` or an absent key yields the
invalid zero value, a JSON string is parsed as duration text, and any
other JSON value is a decode error. -/
def decodeNullDuration : Option JVal → Except Unit NullDuration
  | some (.jstr s) => NullDuration.unmarshalText s
  | some .jnull => .ok ⟨0, false⟩
  | some .jother => .error ()
  | none => .ok ⟨0, false⟩

/-- Model of `json.Unmarshal(jsonRawConf, &jsonConf)` for a present raw
message: zero-length or malformed content is a decode error; a JSON
object populates the six tagged fields (`url`, `cloud-id`, `caCertFile`,
`user`, `password`, `flushPeriod`) of a zero `Config`, unknown keys being
ignored. -/
def unmarshalConfig : RawMessage → Except Unit Config
  | .empty => .error ()
  | .malformed => .error ()
  | .obj fields => do
    let url ← decodeNullString (fields.lookup "url")
    let cloudID ← decodeNullString (fields.lookup "cloud-id")
    let caCert ← decodeNullString (fields.lookup "caCertFile")
    let user ← decodeNullString (fields.lookup "user")
    let password ← decodeNullString (fields.lookup "password")
    let flushPeriod ← decodeNullDuration (fields.lookup "flushPeriod")
    return { url := url, cloudID := cloudID, caCert := caCert,
             user := user, password := password, flushPeriod := flushPeriod }

/-! ### Model of the external `strvals` parser and `ParseArg`

`ParseArg` hands the inline argument string to the external Helm
`strvals.Parse`, which yields a `map[string]interface{}` or an error.  We
model a non-empty argument string by that behaviour: `malformed` when the
mini-language grammar fails to parse, `params` with its association list
of parsed values otherwise.  A parsed value is either a string (`vstr`)
or a value of any other dynamic type (`vother`), on which the Go type
assertion `.(string)` fails and the key is skipped.  Keys are distinct,
as produced by a map. -/

/-- A parsed `strvals` value, by its behaviour under `.(string)`. -/
inductive StrVal where
  | vstr (s : String)
  | vother
  deriving Repr, DecidableEq

/-- A non-empty inline argument string, by its `strvals.Parse`
behaviour. -/
inductive ArgSrc where
  | malformed
  | params (ps : List (String × StrVal))
  deriving Repr, DecidableEq

/-- `params[k].(string)` with the comma-ok pattern: `some v` exactly when
the key is present with a string value. -/
def lookupStr (ps : List (String × StrVal)) (k : String) : Option String :=
  match ps.lookup k with
  | some (.vstr v) => some v
  | _ => none

/-- The six keys `ParseArg` consults, in source order; every other key of
the parsed mapping is never looked up. -/
def recognizedArgKeys : List String :=
  ["url", "cloud-id", "caCertFile", "user", "password", "flushPeriod"]

/-- The five recognized string-valued keys of `ParseArg`, applied to the
zero config in source order. -/
def parseArgStrings (ps : List (String × StrVal)) : Config :=
  let c := zeroConfig
  let c := match lookupStr ps "url" with
    | some v => { c with url := ⟨v, true⟩ }
    | none => c
  let c := match lookupStr ps "cloud-id" with
    | some v => { c with cloudID := ⟨v, true⟩ }
    | none => c
  let c := match lookupStr ps "caCertFile" with
    | some v => { c with caCert := ⟨v, true⟩ }
    | none => c
  let c := match lookupStr ps "user" with
    | some v => { c with user := ⟨v, true⟩ }
    | none => c
  match lookupStr ps "password" with
  | some v => { c with password := ⟨v, true⟩ }
  | none => c

/-- `ParseArg` from the source, over the modelled `strvals.Parse` output.
Like the Go function it returns both a `Config` and an optional error:
on a grammar error the zero config is returned with the error; recognized
string-valued keys populate the config in source order; a `flushPeriod`
value that fails duration parsing returns the partially-built config
together with the error. -/
def ParseArg (arg : ArgSrc) : Config × Option Unit :=
  match arg with
  | .malformed => (zeroConfig, some ())
  | .params ps =>
    let c := parseArgStrings ps
    match lookupStr ps "flushPeriod" with
    | some v =>
      match NullDuration.unmarshalText v with
      | .error _ => (c, some ())
      | .ok d => ({ c with flushPeriod := d }, none)
    | none => (c, none)

/-! ### `GetConsolidatedConfig`

The Go function is a sequence of three inline blocks with early returns;
each block is embedded as a named layer function returning the updated
accumulator and an optional error, and `GetConsolidatedConfig` chains
them with the early-return pattern of the source.  The environment
`map[string]string` is an association list with distinct keys; a `nil`
`json.RawMessage` is `none`; an empty argument string is `none`. -/

/-- The `if jsonRawConf != nil` block: a present raw message is decoded
(returning the untouched accumulator and the error on failure) and merged
onto the accumulator via `Apply`. -/
def docLayer (result : Config) (jsonRawConf : Option RawMessage) : Config × Option Unit :=
  match jsonRawConf with
  | none => (result, none)
  | some raw =>
    match unmarshalConfig raw with
    | .error _ => (result, some ())
    | .ok jsonConf => (result.Apply jsonConf, none)

/-- The five direct environment-variable overwrites that follow the
flush-period block, in source order. -/
def envStrings (result : Config) (env : List (String × String)) : Config :=
  let result := match env.lookup "K6_ELASTICSEARCH_URL" with
    | some url => { result with url := ⟨url, true⟩ }
    | none => result
  let result := match env.lookup "K6_ELASTICSEARCH_CLOUD_ID" with
    | some cloudId => { result with cloudID := ⟨cloudId, true⟩ }
    | none => result
  let result := match env.lookup "K6_ELASTICSEARCH_CA_CERT_FILE" with
    | some ca => { result with caCert := ⟨ca, true⟩ }
    | none => result
  let result := match env.lookup "K6_ELASTICSEARCH_USER" with
    | some user => { result with user := ⟨user, true⟩ }
    | none => result
  match env.lookup "K6_ELASTICSEARCH_PASSWORD" with
  | some password => { result with password := ⟨password, true⟩ }
  | none => result

/-- The environment block: `K6_ELASTICSEARCH_FLUSH_PERIOD`, when present,
is re-parsed from text first (an unparsable value returns the accumulator
unchanged with the error, before any of the five string overwrites);
then the five string variables overwrite their fields directly. -/
def envLayer (result : Config) (env : List (String × String)) : Config × Option Unit :=
  match env.lookup "K6_ELASTICSEARCH_FLUSH_PERIOD" with
  | some flushPeriod =>
    match NullDuration.unmarshalText flushPeriod with
    | .error _ => (result, some ())
    | .ok d => (envStrings { result with flushPeriod := d } env, none)
  | none => (envStrings result env, none)

/-- The `if arg != ""` block: a non-empty argument is parsed with
`ParseArg` (an error returns the accumulator, discarding `ParseArg`'s
partial result) and merged onto the accumulator via `Apply`. -/
def argLayer (result : Config) (arg : Option ArgSrc) : Config × Option Unit :=
  match arg with
  | none => (result, none)
  | some a =>
    match ParseArg a with
    | (_, some e) => (result, some e)
    | (argConf, none) => (result.Apply argConf, none)

/-- `GetConsolidatedConfig` from the source: defaults, then the document,
environment and inline-argument layers, short-circuiting on the first
error with the accumulator as it stood before the failing layer. -/
def GetConsolidatedConfig (jsonRawConf : Option RawMessage)
    (env : List (String × String)) (arg : Option ArgSrc) : Config × Option Unit :=
  let result := NewConfig
  match docLayer result jsonRawConf with
  | (result, some e) => (result, some e)
  | (result, none) =>
    match envLayer result env with
    | (result, some e) => (result, some e)
    | (result, none) =>
      match argLayer result arg with
      | (result, some e) => (result, some e)
      | (result, none) => (result, none)

/-! ### Helper lemmas -/

theorem envStrings_url (r : Config) (env : List (String × String)) :
    (envStrings r env).url =
      match env.lookup "K6_ELASTICSEARCH_URL" with
      | some v => (⟨v, true⟩ : NullString)
      | none => r.url := by
  unfold envStrings
  rcases env.lookup "K6_ELASTICSEARCH_URL" with _ | u <;>
    rcases env.lookup "K6_ELASTICSEARCH_CLOUD_ID" with _ | c <;>
    rcases env.lookup "K6_ELASTICSEARCH_CA_CERT_FILE" with _ | a <;>
    rcases env.lookup "K6_ELASTICSEARCH_USER" with _ | s <;>
    rcases env.lookup "K6_ELASTICSEARCH_PASSWORD" with _ | p <;> rfl

theorem envStrings_cloudID (r : Config) (env : List (String × String)) :
    (envStrings r env).cloudID =
      match env.lookup "K6_ELASTICSEARCH_CLOUD_ID" with
      | some v => (⟨v, true⟩ : NullString)
      | none => r.cloudID := by
  unfold envStrings
  rcases env.lookup "K6_ELASTICSEARCH_URL" with _ | u <;>
    rcases env.lookup "K6_ELASTICSEARCH_CLOUD_ID" with _ | c <;>
    rcases env.lookup "K6_ELASTICSEARCH_CA_CERT_FILE" with _ | a <;>
    rcases env.lookup "K6_ELASTICSEARCH_USER" with _ | s <;>
    rcases env.lookup "K6_ELASTICSEARCH_PASSWORD" with _ | p <;> rfl

theorem envStrings_caCert (r : Config) (env : List (String × String)) :
    (envStrings r env).caCert =
      match env.lookup "K6_ELASTICSEARCH_CA_CERT_FILE" with
      | some v => (⟨v, true⟩ : NullString)
      | none => r.caCert := by
  unfold envStrings
  rcases env.lookup "K6_ELASTICSEARCH_URL" with _ | u <;>
    rcases env.lookup "K6_ELASTICSEARCH_CLOUD_ID" with _ | c <;>
    rcases env.lookup "K6_ELASTICSEARCH_CA_CERT_FILE" with _ | a <;>
    rcases env.lookup "K6_ELASTICSEARCH_USER" with _ | s <;>
    rcases env.lookup "K6_ELASTICSEARCH_PASSWORD" with _ | p <;> rfl

theorem envStrings_user (r : Config) (env : List (String × String)) :
    (envStrings r env).user =
      match env.lookup "K6_ELASTICSEARCH_USER" with
      | some v => (⟨v, true⟩ : NullString)
      | none => r.user := by
  unfold envStrings
  rcases env.lookup "K6_ELASTICSEARCH_URL" with _ | u <;>
    rcases env.lookup "K6_ELASTICSEARCH_CLOUD_ID" with _ | c <;>
    rcases env.lookup "K6_ELASTICSEARCH_CA_CERT_FILE" with _ | a <;>
    rcases env.lookup "K6_ELASTICSEARCH_USER" with _ | s <;>
    rcases env.lookup "K6_ELASTICSEARCH_PASSWORD" with _ | p <;> rfl

theorem envStrings_password (r : Config) (env : List (String × String)) :
    (envStrings r env).password =
      match env.lookup "K6_ELASTICSEARCH_PASSWORD" with
      | some v => (⟨v, true⟩ : NullString)
      | none => r.password := by
  unfold envStrings
  rcases env.lookup "K6_ELASTICSEARCH_URL" with _ | u <;>
    rcases env.lookup "K6_ELASTICSEARCH_CLOUD_ID" with _ | c <;>
    rcases env.lookup "K6_ELASTICSEARCH_CA_CERT_FILE" with _ | a <;>
    rcases env.lookup "K6_ELASTICSEARCH_USER" with _ | s <;>
    rcases env.lookup "K6_ELASTICSEARCH_PASSWORD" with _ | p <;> rfl

theorem envStrings_flushPeriod (r : Config) (env : List (String × String)) :
    (envStrings r env).flushPeriod = r.flushPeriod := by
  unfold envStrings
  rcases env.lookup "K6_ELASTICSEARCH_URL" with _ | u <;>
    rcases env.lookup "K6_ELASTICSEARCH_CLOUD_ID" with _ | c <;>
    rcases env.lookup "K6_ELASTICSEARCH_CA_CERT_FILE" with _ | a <;>
    rcases env.lookup "K6_ELASTICSEARCH_USER" with _ | s <;>
    rcases env.lookup "K6_ELASTICSEARCH_PASSWORD" with _ | p <;> rfl

theorem parseArgStrings_flushPeriod (ps : List (String × StrVal)) :
    (parseArgStrings ps).flushPeriod = ⟨0, false⟩ := by
  unfold parseArgStrings
  rcases lookupStr ps "url" with _ | u <;>
    rcases lookupStr ps "cloud-id" with _ | c <;>
    rcases lookupStr ps "caCertFile" with _ | a <;>
    rcases lookupStr ps "user" with _ | s <;>
    rcases lookupStr ps "password" with _ | p <;> rfl

theorem apply_flushPeriod (base applied : Config) :
    (base.Apply applied).flushPeriod =
      if applied.flushPeriod.valid then applied.flushPeriod
      else base.flushPeriod := by
  obtain ⟨⟨uv, ub⟩, ⟨cv, cb⟩, ⟨av, ab⟩, ⟨sv, sb⟩, ⟨pv, pb⟩, ⟨fv, fb⟩⟩ := applied
  cases ub <;> cases cb <;> cases ab <;> cases sb <;> cases pb <;> cases fb <;> rfl

/-- Filtering an association list by a predicate on keys preserves the
lookup of any key the predicate accepts. -/
theorem lookup_filter (pred : String → Bool) (k : String) (hk : pred k = true)
    (ps : List (String × StrVal)) :
    (ps.filter (fun p => pred p.1)).lookup k = ps.lookup k := by
  induction ps with
  | nil => rfl
  | cons hd tl ih =>
    obtain ⟨a, v⟩ := hd
    by_cases hka : k = a
    · subst hka
      simp [List.filter_cons, hk, List.lookup_cons]
    · have hbeq : (k == a) = false := by
        cases h : (k == a) with
        | false => rfl
        | true => exact absurd (eq_of_beq h) hka
      cases hpa : pred a with
      | false => simp [List.filter_cons, hpa, List.lookup_cons, hbeq, ih]
      | true => simp [List.filter_cons, hpa, List.lookup_cons, hbeq, ih]

/-- `GetConsolidatedConfig` unfolded into its three layers with the
early-return pattern made explicit. -/
theorem getConsolidatedConfig_eq (j : Option RawMessage)
    (env : List (String × String)) (arg : Option ArgSrc) :
    GetConsolidatedConfig j env arg =
      match docLayer NewConfig j with
      | (r, some e) => (r, some e)
      | (r, none) =>
        match envLayer r env with
        | (r, some e) => (r, some e)
        | (r, none) => argLayer r arg := by
  rcases hd : docLayer NewConfig j with ⟨r, e⟩
  rcases e with _ | e
  · rcases he : envLayer r env with ⟨r2, e2⟩
    rcases e2 with _ | e2
    · rcases ha : argLayer r2 arg with ⟨r3, e3⟩
      rcases e3 with _ | e3 <;> simp [GetConsolidatedConfig, hd, he, ha]
    · simp [GetConsolidatedConfig, hd, he]
  · simp [GetConsolidatedConfig, hd]

/-- The inline-argument layer in terms of the resolution without an
inline argument. -/
theorem getConsolidatedConfig_arg_decomp (j : Option RawMessage)
    (env : List (String × String)) (a : ArgSrc) :
    GetConsolidatedConfig j env (some a) =
      match GetConsolidatedConfig j env none with
      | (r, some e) => (r, some e)
      | (r, none) => argLayer r (some a) := by
  rw [getConsolidatedConfig_eq j env (some a), getConsolidatedConfig_eq j env none]
  rcases hd : docLayer NewConfig j with ⟨r, e⟩
  rcases e with _ | e
  · rcases he : envLayer r env with ⟨r2, e2⟩
    rcases e2 with _ | e2 <;> simp [hd, he, argLayer]
  · simp [hd]

/-! ### Claims -/

/-- C1: `Apply` treats the six fields independently: each field of the
result is `applied`'s field (value and validity) when `applied`'s field is
valid, and `base`'s field otherwise, regardless of the bit pattern an
invalid field of `applied` carries. -/
theorem apply_field_independence (base applied : Config) :
    base.Apply applied =
      { url := if applied.url.valid then applied.url else base.url
        cloudID := if applied.cloudID.valid then applied.cloudID else base.cloudID
        caCert := if applied.caCert.valid then applied.caCert else base.caCert
        user := if applied.user.valid then applied.user else base.user
        password := if applied.password.valid then applied.password else base.password
        flushPeriod := if applied.flushPeriod.valid then applied.flushPeriod
                       else base.flushPeriod } := by
  obtain ⟨⟨uv, ub⟩, ⟨cv, cb⟩, ⟨av, ab⟩, ⟨sv, sb⟩, ⟨pv, pb⟩, ⟨fv, fb⟩⟩ := applied
  cases ub <;> cases cb <;> cases ab <;> cases sb <;> cases pb <;> cases fb <;> rfl

/-- C2: resolving the document `{"url":"http://doc:9200"}`, the
environment `{K6_ELASTICSEARCH_USER: "envuser"}` and the inline argument
`"password=secret"` succeeds with url from the document, user from the
environment, password from the inline argument, the default 1-second
flush period, and cloud-id and CA-cert absent. -/
theorem consolidated_config_layering_example :
    GetConsolidatedConfig
      (some (.obj [("url", .jstr "http://doc:9200")]))
      [("K6_ELASTICSEARCH_USER", "envuser")]
      (some (.params [("password", .vstr "secret")])) =
    ({ url := ⟨"http://doc:9200", true⟩, cloudID := ⟨"", false⟩,
       caCert := ⟨"", false⟩, user := ⟨"envuser", true⟩,
       password := ⟨"secret", true⟩,
       flushPeriod := ⟨1000000000, true⟩ }, none) := by decide

/-- C3: `NewConfig` takes no input, cannot fail (its type has no error
component), and always returns the config with url
`"http://localhost:9200"` valid, flush period one second (10^9
nanoseconds) valid, and the other four fields invalid. -/
theorem newConfig_defaults :
    NewConfig =
      { url := ⟨"http://localhost:9200", true⟩
        cloudID := ⟨"", false⟩
        caCert := ⟨"", false⟩
        user := ⟨"", false⟩
        password := ⟨"", false⟩
        flushPeriod := ⟨1000000000, true⟩ } := rfl

/-- C4: for every present raw document that fails to decode,
`GetConsolidatedConfig` returns an error together with exactly the
default configuration `NewConfig` — the document layer is the first after
the defaults, and no later layer (environment, inline) is attempted, for
any environment and inline argument. -/
theorem malformed_document_returns_defaults (raw : RawMessage)
    (env : List (String × String)) (arg : Option ArgSrc)
    (h : unmarshalConfig raw = .error ()) :
    GetConsolidatedConfig (some raw) env arg = (NewConfig, some ()) := by
  simp [GetConsolidatedConfig, docLayer, h]

/-- Witness for C4 at the concrete malformed document, with a non-empty
environment and no inline argument. -/
theorem malformed_document_returns_defaults_witness :
    unmarshalConfig .malformed = .error () ∧
    GetConsolidatedConfig (some .malformed)
      [("K6_ELASTICSEARCH_USER", "u")] none = (NewConfig, some ()) :=
  ⟨rfl, malformed_document_returns_defaults .malformed
    [("K6_ELASTICSEARCH_USER", "u")] none rfl⟩

/-- C7: a configuration with all six fields invalid is a right identity
of `Apply`: merging it onto any base returns base unchanged. -/
theorem apply_all_absent_right_identity (base applied : Config)
    (h : applied.url.valid = false ∧ applied.cloudID.valid = false ∧
         applied.caCert.valid = false ∧ applied.user.valid = false ∧
         applied.password.valid = false ∧ applied.flushPeriod.valid = false) :
    base.Apply applied = base := by
  obtain ⟨h1, h2, h3, h4, h5, h6⟩ := h
  simp [Config.Apply, h1, h2, h3, h4, h5, h6]

/-- Witness for C7: the zero config (all fields invalid) merged onto the
default config leaves it unchanged. -/
theorem apply_all_absent_right_identity_witness :
    (zeroConfig.url.valid = false ∧ zeroConfig.cloudID.valid = false ∧
     zeroConfig.caCert.valid = false ∧ zeroConfig.user.valid = false ∧
     zeroConfig.password.valid = false ∧ zeroConfig.flushPeriod.valid = false) ∧
    NewConfig.Apply zeroConfig = NewConfig :=
  ⟨by decide, apply_all_absent_right_identity NewConfig zeroConfig (by decide)⟩

/-- C9: `ParseArg` silently ignores keys other than the six recognized
ones: for every parsed argument mapping, it returns exactly the config
and error it returns on the mapping restricted to the recognized keys —
unrecognized keys cause no error and set no field — and in particular a
mapping with no recognized key at all yields the zero config and no
error. -/
theorem parseArg_ignores_unrecognized_keys (ps : List (String × StrVal)) :
    ParseArg (.params ps) =
      ParseArg (.params (ps.filter (fun p => recognizedArgKeys.contains p.1))) ∧
    ((∀ p ∈ ps, recognizedArgKeys.contains p.1 = false) →
      ParseArg (.params ps) = (zeroConfig, none)) := by
  have hfilter : ∀ k, recognizedArgKeys.contains k = true →
      lookupStr (ps.filter (fun p => recognizedArgKeys.contains p.1)) k =
        lookupStr ps k := by
    intro k hk
    unfold lookupStr
    rw [lookup_filter recognizedArgKeys.contains k hk ps]
  have hinv : ParseArg (.params ps) =
      ParseArg (.params (ps.filter (fun p => recognizedArgKeys.contains p.1))) := by
    have h1 := hfilter "url" (by decide)
    have h2 := hfilter "cloud-id" (by decide)
    have h3 := hfilter "caCertFile" (by decide)
    have h4 := hfilter "user" (by decide)
    have h5 := hfilter "password" (by decide)
    have h6 := hfilter "flushPeriod" (by decide)
    simp only [ParseArg, parseArgStrings, h1, h2, h3, h4, h5, h6]
  refine ⟨hinv, fun hnone => ?_⟩
  have hnil : ps.filter (fun p => recognizedArgKeys.contains p.1) = [] := by
    rw [List.filter_eq_nil_iff]
    intro p hp
    simpa using hnone p hp
  rw [hinv, hnil]
  rfl

/-- Witness for C9: on a mixed mapping (one recognized key among
unrecognized ones) `ParseArg` coincides with its run on the recognized
key alone, setting only that field; a mapping with only unrecognized
keys yields the zero config and no error. -/
theorem parseArg_ignores_unrecognized_keys_witness :
    (ParseArg (.params [("url", .vstr "http://a:9200"), ("bogus", .vstr "y"),
        ("other", .vother)]) =
      ParseArg (.params [("url", .vstr "http://a:9200")])) ∧
    ParseArg (.params [("url", .vstr "http://a:9200"), ("bogus", .vstr "y"),
        ("other", .vother)]) =
      ({ zeroConfig with url := ⟨"http://a:9200", true⟩ }, none) ∧
    ParseArg (.params [("bogus", .vstr "y")]) = (zeroConfig, none) :=
  ⟨(parseArg_ignores_unrecognized_keys
      [("url", .vstr "http://a:9200"), ("bogus", .vstr "y"), ("other", .vother)]).1,
   by decide,
   (parseArg_ignores_unrecognized_keys [("bogus", .vstr "y")]).2 (by decide)⟩

/-- C5: for an inline argument whose parsed mapping carries a string
`flushPeriod` value: when the value is valid duration text the parsed
config's flush period (and the consolidated result's flush period) equals
that duration and the result is the accumulator with the parsed config
merged on; when duration parsing fails, `GetConsolidatedConfig` returns
an error and exactly the accumulator as it stood before the inline layer
— the partially-built local result of `ParseArg` is discarded. -/
theorem inline_flushPeriod_parse_and_error (j : Option RawMessage)
    (env : List (String × String)) (ps : List (String × StrVal)) (v : String)
    (acc : Config)
    (hacc : GetConsolidatedConfig j env none = (acc, none))
    (hv : ps.lookup "flushPeriod" = some (.vstr v))
    (hne : v ≠ "") :
    (∀ d, parseGoDuration v = some d →
      (ParseArg (.params ps)).1.flushPeriod = ⟨d, true⟩ ∧
      GetConsolidatedConfig j env (some (.params ps)) =
        (acc.Apply (ParseArg (.params ps)).1, none) ∧
      (GetConsolidatedConfig j env (some (.params ps))).1.flushPeriod = ⟨d, true⟩) ∧
    (parseGoDuration v = none →
      GetConsolidatedConfig j env (some (.params ps)) = (acc, some ())) := by
  have hls : lookupStr ps "flushPeriod" = some v := by simp [lookupStr, hv]
  constructor
  · intro d hd
    have hut : NullDuration.unmarshalText v = .ok ⟨d, true⟩ := by
      simp [NullDuration.unmarshalText, hne, hd]
    have hpa : ParseArg (.params ps) =
        ({ parseArgStrings ps with flushPeriod := ⟨d, true⟩ }, none) := by
      simp [ParseArg, hls, hut]
    refine ⟨by rw [hpa], ?_, ?_⟩
    · rw [getConsolidatedConfig_arg_decomp, hacc]
      simp [argLayer, hpa]
    · rw [getConsolidatedConfig_arg_decomp, hacc]
      simp [argLayer, hpa, apply_flushPeriod]
  · intro hd
    have hut : NullDuration.unmarshalText v = .error () := by
      simp [NullDuration.unmarshalText, hne, hd]
    have hpa : ParseArg (.params ps) = (parseArgStrings ps, some ()) := by
      simp [ParseArg, hls, hut]
    rw [getConsolidatedConfig_arg_decomp, hacc]
    simp [argLayer, hpa]

/-- Witness for C5: `flushPeriod=5s` parses to five seconds, and
`flushPeriod=notaduration` yields an error with the untouched default
accumulator. -/
theorem inline_flushPeriod_parse_and_error_witness :
    (ParseArg (.params [("flushPeriod", .vstr "5s")])).1.flushPeriod =
      ⟨5000000000, true⟩ ∧
    GetConsolidatedConfig none []
      (some (.params [("flushPeriod", .vstr "notaduration")])) =
      (NewConfig, some ()) :=
  ⟨((inline_flushPeriod_parse_and_error none [] [("flushPeriod", .vstr "5s")]
      "5s" NewConfig rfl rfl (by decide)).1 5000000000 rfl).1,
   (inline_flushPeriod_parse_and_error none []
      [("flushPeriod", .vstr "notaduration")] "notaduration" NewConfig
      rfl rfl (by decide)).2 rfl⟩

/-- C6: in a successful environment layer, each of the five string fields
is overwritten with the mapped string exactly when its variable is
present (untouched otherwise), and the flush period is re-parsed from the
text of `K6_ELASTICSEARCH_FLUSH_PERIOD` when present (untouched when
absent); concretely an environment value of `"2m"` overrides a
document-supplied `"10s"` flush period, which overrode the 1-second
default. -/
theorem env_overrides (acc : Config) (env : List (String × String))
    (h : (envLayer acc env).2 = none) :
    (∀ v, env.lookup "K6_ELASTICSEARCH_URL" = some v →
      (envLayer acc env).1.url = ⟨v, true⟩) ∧
    (env.lookup "K6_ELASTICSEARCH_URL" = none →
      (envLayer acc env).1.url = acc.url) ∧
    (∀ v, env.lookup "K6_ELASTICSEARCH_CLOUD_ID" = some v →
      (envLayer acc env).1.cloudID = ⟨v, true⟩) ∧
    (env.lookup "K6_ELASTICSEARCH_CLOUD_ID" = none →
      (envLayer acc env).1.cloudID = acc.cloudID) ∧
    (∀ v, env.lookup "K6_ELASTICSEARCH_CA_CERT_FILE" = some v →
      (envLayer acc env).1.caCert = ⟨v, true⟩) ∧
    (env.lookup "K6_ELASTICSEARCH_CA_CERT_FILE" = none →
      (envLayer acc env).1.caCert = acc.caCert) ∧
    (∀ v, env.lookup "K6_ELASTICSEARCH_USER" = some v →
      (envLayer acc env).1.user = ⟨v, true⟩) ∧
    (env.lookup "K6_ELASTICSEARCH_USER" = none →
      (envLayer acc env).1.user = acc.user) ∧
    (∀ v, env.lookup "K6_ELASTICSEARCH_PASSWORD" = some v →
      (envLayer acc env).1.password = ⟨v, true⟩) ∧
    (env.lookup "K6_ELASTICSEARCH_PASSWORD" = none →
      (envLayer acc env).1.password = acc.password) ∧
    (∀ t d, env.lookup "K6_ELASTICSEARCH_FLUSH_PERIOD" = some t → t ≠ "" →
      parseGoDuration t = some d →
      (envLayer acc env).1.flushPeriod = ⟨d, true⟩) ∧
    (env.lookup "K6_ELASTICSEARCH_FLUSH_PERIOD" = none →
      (envLayer acc env).1.flushPeriod = acc.flushPeriod) ∧
    GetConsolidatedConfig (some (.obj [("flushPeriod", .jstr "10s")]))
      [("K6_ELASTICSEARCH_FLUSH_PERIOD", "2m")] none =
      ({ NewConfig with flushPeriod := ⟨120000000000, true⟩ }, none) := by
  have key : ∃ r0 : Config, (envLayer acc env).1 = envStrings r0 env ∧
      r0.url = acc.url ∧ r0.cloudID = acc.cloudID ∧ r0.caCert = acc.caCert ∧
      r0.user = acc.user ∧ r0.password = acc.password := by
    rcases hfp : env.lookup "K6_ELASTICSEARCH_FLUSH_PERIOD" with _ | t
    · exact ⟨acc, by simp [envLayer, hfp], rfl, rfl, rfl, rfl, rfl⟩
    · rcases hut : NullDuration.unmarshalText t with e | d
      · exfalso
        simp [envLayer, hfp, hut] at h
      · exact ⟨{ acc with flushPeriod := d }, by simp [envLayer, hfp, hut],
          rfl, rfl, rfl, rfl, rfl⟩
  obtain ⟨r0, hr, hu, hc, hca, hus, hp⟩ := key
  refine ⟨?_, ?_, ?_, ?_, ?_, ?_, ?_, ?_, ?_, ?_, ?_, ?_, ?_⟩
  · intro v hv; simp [hr, envStrings_url, hv]
  · intro hv; simp [hr, envStrings_url, hv, hu]
  · intro v hv; simp [hr, envStrings_cloudID, hv]
  · intro hv; simp [hr, envStrings_cloudID, hv, hc]
  · intro v hv; simp [hr, envStrings_caCert, hv]
  · intro hv; simp [hr, envStrings_caCert, hv, hca]
  · intro v hv; simp [hr, envStrings_user, hv]
  · intro hv; simp [hr, envStrings_user, hv, hus]
  · intro v hv; simp [hr, envStrings_password, hv]
  · intro hv; simp [hr, envStrings_password, hv, hp]
  · intro t d ht htne hd
    have hut : NullDuration.unmarshalText t = .ok ⟨d, true⟩ := by
      simp [NullDuration.unmarshalText, htne, hd]
    simp [envLayer, ht, hut, envStrings_flushPeriod]
  · intro ht
    simp [envLayer, ht, envStrings_flushPeriod]
  · decide

/-- Witness for C6: a single-variable environment overwriting the url of
the default config, with no error from the layer. -/
theorem env_overrides_witness :
    (envLayer NewConfig [("K6_ELASTICSEARCH_URL", "http://env:9200")]).2 = none ∧
    (envLayer NewConfig [("K6_ELASTICSEARCH_URL", "http://env:9200")]).1.url =
      ⟨"http://env:9200", true⟩ :=
  ⟨by decide, (env_overrides NewConfig [("K6_ELASTICSEARCH_URL", "http://env:9200")]
      (by decide)).1 "http://env:9200" rfl⟩

/-- C8 (amended): only an absent (`nil`) raw document skips the document
layer: then no error arises and resolution proceeds through the
environment and inline layers exactly as if no document had been
supplied.  (An empty-but-present document is not skipped: it fails to
decode, see the counterexample.) -/
theorem nil_document_skipped (r : Config) (env : List (String × String))
    (arg : Option ArgSrc) :
    docLayer r none = (r, none) ∧
    GetConsolidatedConfig none env arg =
      (match envLayer NewConfig env with
       | (c, some e) => (c, some e)
       | (c, none) => argLayer c arg) := by
  refine ⟨rfl, ?_⟩
  rw [getConsolidatedConfig_eq]
  rcases he : envLayer NewConfig env with ⟨r2, e2⟩
  rcases e2 with _ | e2 <;> simp [docLayer, he]

/-- Counterexample to C8 as stated: a present but zero-length raw
document is not skipped; `GetConsolidatedConfig` raises a decode error on
it instead of proceeding. -/
theorem empty_document_not_skipped :
    GetConsolidatedConfig (some RawMessage.empty) [] none =
      (NewConfig, some ()) := by decide

/-- C10: the environment layer handles the flush-period variable before
the five string variables: when `K6_ELASTICSEARCH_FLUSH_PERIOD` is
present with unparsable duration text, `GetConsolidatedConfig` returns an
error together with the accumulator exactly as the document layer left
it — none of the five string overrides is applied, whatever else the
environment holds, and the inline layer is never attempted. -/
theorem env_flushPeriod_error_blocks (j : Option RawMessage)
    (env : List (String × String)) (arg : Option ArgSrc) (acc : Config)
    (t : String)
    (hdoc : docLayer NewConfig j = (acc, none))
    (ht : env.lookup "K6_ELASTICSEARCH_FLUSH_PERIOD" = some t)
    (hne : t ≠ "") (hparse : parseGoDuration t = none) :
    GetConsolidatedConfig j env arg = (acc, some ()) := by
  have hut : NullDuration.unmarshalText t = .error () := by
    simp [NullDuration.unmarshalText, hne, hparse]
  have henv : envLayer acc env = (acc, some ()) := by
    simp [envLayer, ht, hut]
  rw [getConsolidatedConfig_eq, hdoc]
  simp [henv]

/-- Witness for C10: a bad flush-period value blocks a user override
present in the same environment. -/
theorem env_flushPeriod_error_blocks_witness :
    GetConsolidatedConfig none
      [("K6_ELASTICSEARCH_FLUSH_PERIOD", "bad"), ("K6_ELASTICSEARCH_USER", "u")]
      none = (NewConfig, some ()) :=
  env_flushPeriod_error_blocks none
    [("K6_ELASTICSEARCH_FLUSH_PERIOD", "bad"), ("K6_ELASTICSEARCH_USER", "u")]
    none NewConfig "bad" rfl rfl (by decide) rfl

end ESOutput
